import Mathlib

/-!
Verification of the realtime-sip-agent service: a shallow embedding of the
webhook handler, the call-accept flow, the event-stream handlers and the
function-call dispatch logic from `src/server.js` and its variant files
(`src/unnamed/part_000` … `part_006`), with theorems settling the claims of
the spec about them.
-/

namespace RealtimeSipAgent

/-- JSON values as handled by the service: frames on the event stream, tool
arguments and tool results are all JSON. Numbers are restricted to integers,
which covers every value this service constructs or inspects. -/
inductive Json where
  | null : Json
  | bool : Bool → Json
  | num : Int → Json
  | str : String → Json
  | arr : List Json → Json
  | obj : List (String × Json) → Json
deriving Repr

/-- Property lookup on the field list of an object (first match wins, as in JS). -/
def findField (k : String) : List (String × Json) → Option Json
  | [] => none
  | (k', v) :: fs => if k' = k then some v else findField k fs

/-- Optional-chaining property access `o?.k`: `none` models `undefined`. -/
def Json.getField : Json → String → Option Json
  | Json.obj fs, k => findField k fs
  | _, _ => none

/-- JS truthiness of a value (used by `?:` guards and `||` defaults). -/
def jsTruthy : Json → Bool
  | Json.null => false
  | Json.bool b => b
  | Json.num n => n != 0
  | Json.str s => s != ""
  | Json.arr _ => true
  | Json.obj _ => true

/-- JS string coercion of a possibly-absent value, as performed by template
literals: `undefined` renders as the string "undefined". Array rendering is
not exercised by this service. -/
def jsDisplay : Option Json → String
  | none => "undefined"
  | some Json.null => "null"
  | some (Json.bool true) => "true"
  | some (Json.bool false) => "false"
  | some (Json.num n) => toString n
  | some (Json.str s) => s
  | some (Json.arr _) => ""
  | some (Json.obj _) => "[object Object]"

/-- JSON string escaping for the characters this service can emit. -/
def escapeJsonChar (c : Char) : List Char :=
  if c = '"' then ['\\', '"']
  else if c = '\\' then ['\\', '\\']
  else if c = '\n' then ['\\', 'n']
  else if c = '\t' then ['\\', 't']
  else [c]

/-- Escape every character of a string for inclusion in a JSON literal. -/
def escapeJsonString (s : String) : String :=
  String.mk (s.data.foldr (fun c acc => escapeJsonChar c ++ acc) [])

mutual

/-- `JSON.stringify` on the embedded values. -/
def Json.stringify : Json → String
  | Json.null => "null"
  | Json.bool true => "true"
  | Json.bool false => "false"
  | Json.num n => toString n
  | Json.str s => "\"" ++ escapeJsonString s ++ "\""
  | Json.arr xs => "[" ++ stringifyElems xs ++ "]"
  | Json.obj fs => "\x7b" ++ stringifyFields fs ++ "\x7d"

/-- Comma-joined serialization of array elements. -/
def stringifyElems : List Json → String
  | [] => ""
  | [x] => Json.stringify x
  | x :: y :: xs => Json.stringify x ++ "," ++ stringifyElems (y :: xs)

/-- Comma-joined serialization of object members. -/
def stringifyFields : List (String × Json) → String
  | [] => ""
  | [(k, v)] => "\"" ++ escapeJsonString k ++ "\":" ++ Json.stringify v
  | (k, v) :: f :: fs =>
    "\"" ++ escapeJsonString k ++ "\":" ++ Json.stringify v ++ "," ++ stringifyFields (f :: fs)

end

/-- JSON whitespace. -/
def isJsonWs (c : Char) : Bool :=
  c = ' ' || c = '\n' || c = '\t' || c = '\r'

/-- Drop leading JSON whitespace. -/
def skipWs : List Char → List Char
  | [] => []
  | c :: cs => if isJsonWs c then skipWs cs else c :: cs

/-- Body of a JSON string literal: read up to the closing quote, handling the
escape sequences the service can encounter; unknown escapes fail the parse. -/
def parseStringBody (acc : List Char) : List Char → Option (String × List Char)
  | [] => none
  | '"' :: rest => some (String.mk acc.reverse, rest)
  | '\\' :: '"' :: rest => parseStringBody ('"' :: acc) rest
  | '\\' :: '\\' :: rest => parseStringBody ('\\' :: acc) rest
  | '\\' :: '/' :: rest => parseStringBody ('/' :: acc) rest
  | '\\' :: 'n' :: rest => parseStringBody ('\n' :: acc) rest
  | '\\' :: 't' :: rest => parseStringBody ('\t' :: acc) rest
  | '\\' :: _ :: _ => none
  | '\\' :: [] => none
  | c :: rest => parseStringBody (c :: acc) rest

/-- Split a leading digit run from the input. -/
def takeDigits : List Char → List Char × List Char
  | [] => ([], [])
  | c :: cs =>
    if c.isDigit then
      let (ds, r) := takeDigits cs
      (c :: ds, r)
    else ([], c :: cs)

/-- Numeric value of a digit run. -/
def digitsVal (ds : List Char) : Nat :=
  ds.foldl (fun a c => a * 10 + (c.toNat - 48)) 0

/-- Check that the input starts with the given characters; return the rest. -/
def expectChars : List Char → List Char → Option (List Char)
  | [], rest => some rest
  | e :: es, c :: cs => if c = e then expectChars es cs else none
  | _ :: _, [] => none

mutual

/-- A fuel-bounded model of `JSON.parse` restricted to integer numerals; on
every input the service actually feeds it, the fuel (input length + 1) is
ample. Returns the value and the unconsumed remainder, or `none` on a syntax
error (`JSON.parse` throwing). -/
def parseVal : Nat → List Char → Option (Json × List Char)
  | 0, _ => none
  | fuel + 1, cs =>
    match skipWs cs with
    | [] => none
    | c :: rest =>
      if c = '"' then
        match parseStringBody [] rest with
        | none => none
        | some (s, r) => some (Json.str s, r)
      else if c = Char.ofNat 123 then
        match skipWs rest with
        | [] => none
        | d :: r2 =>
          if d = Char.ofNat 125 then some (Json.obj [], r2)
          else parseMembers fuel (d :: r2) []
      else if c = '[' then
        match skipWs rest with
        | [] => none
        | d :: r2 =>
          if d = ']' then some (Json.arr [], r2)
          else parseElems fuel (d :: r2) []
      else if c = 't' then
        match expectChars ['r', 'u', 'e'] rest with
        | some r => some (Json.bool true, r)
        | none => none
      else if c = 'f' then
        match expectChars ['a', 'l', 's', 'e'] rest with
        | some r => some (Json.bool false, r)
        | none => none
      else if c = 'n' then
        match expectChars ['u', 'l', 'l'] rest with
        | some r => some (Json.null, r)
        | none => none
      else if c = '-' then
        match takeDigits rest with
        | ([], _) => none
        | (ds, r) => some (Json.num (-(digitsVal ds : Int)), r)
      else if c.isDigit then
        match takeDigits (c :: rest) with
        | (ds, r) => some (Json.num (digitsVal ds), r)
      else none

/-- Members of a JSON object after the opening brace (non-empty case). -/
def parseMembers : Nat → List Char → List (String × Json) → Option (Json × List Char)
  | 0, _, _ => none
  | fuel + 1, cs, acc =>
    match skipWs cs with
    | '"' :: r =>
      match parseStringBody [] r with
      | none => none
      | some (k, r2) =>
        match skipWs r2 with
        | ':' :: r3 =>
          match parseVal fuel r3 with
          | none => none
          | some (v, r4) =>
            match skipWs r4 with
            | [] => none
            | d :: r5 =>
              if d = ',' then parseMembers fuel r5 (acc ++ [(k, v)])
              else if d = Char.ofNat 125 then some (Json.obj (acc ++ [(k, v)]), r5)
              else none
        | _ => none
    | _ => none

/-- Elements of a JSON array after the opening bracket (non-empty case). -/
def parseElems : Nat → List Char → List Json → Option (Json × List Char)
  | 0, _, _ => none
  | fuel + 1, cs, acc =>
    match parseVal fuel cs with
    | none => none
    | some (v, r) =>
      match skipWs r with
      | [] => none
      | d :: r2 =>
        if d = ',' then parseElems fuel r2 (acc ++ [v])
        else if d = ']' then some (Json.arr (acc ++ [v]), r2)
        else none

end

/-- `JSON.parse`: a full-input parse; trailing content (after whitespace) is a
syntax error, and so is an empty input. -/
def parseJson (s : String) : Option Json :=
  match parseVal (s.length + 1) s.data with
  | none => none
  | some (v, rest) =>
    match skipWs rest with
    | [] => some v
    | _ :: _ => none

/-- A thrown JS error as observed by a `catch` block: its `message` property
may itself be absent (`e?.message` is `undefined`). -/
structure JsError where
  message : Option String
deriving Repr, DecidableEq

/-- A local tool implementation: arguments in, result out, or a thrown error. -/
def ToolImpl : Type := Json → Except JsError Json

/-- The `functionImplementations` table shape: tool name to implementation. -/
def ToolTable : Type := String → Option ToolImpl

/-- The local tool table `functionImplementations` (server.js lines 122-129).
`new Date()` and `Math.random()` are ambient effects of the runtime; they
enter the embedding as the `now` and `rand` parameters. -/
def functionImplementations (now : String) (rand : Nat) : ToolTable := fun n =>
  if n = "get_current_time" then
    some (fun _ => Except.ok (Json.obj [("current_time", Json.str now)]))
  else if n = "get_random_number" then
    some (fun _ => Except.ok (Json.obj [("random_number", Json.num rand)]))
  else none

/-- `args = item?.arguments ? JSON.parse(item.arguments) : {}` with the parse
failure caught and defaulted to `{}` (server.js lines 142-147). The protocol
carries arguments as a string; a falsy or absent field yields `{}` without
parsing, and a failed parse is caught and also yields `{}`. -/
def argsOf (item : Json) : Json :=
  match item.getField "arguments" with
  | some (Json.str s) => if s = "" then Json.obj [] else (parseJson s).getD (Json.obj [])
  | _ => Json.obj []

/-- `functionImplementations[name]` (server.js line 148): a lookup keyed by the
`name` property of the item; a non-string or absent name finds no
implementation (all table keys are identifiers). -/
def lookupTool (impls : ToolTable) (name : Option Json) : Option ToolImpl :=
  match name with
  | some (Json.str n) => impls n
  | _ => none

/-- The `result` computed by `handleFunctionCall` (server.js lines 149-158):
run the implementation, converting a thrown error to `{error: message}` (with
the fallback message when the error has none), or produce the
`Function <name> is not implemented.` error payload for unknown tools. -/
def dispatchResult (impls : ToolTable) (name : Option Json) (args : Json) : Json :=
  match lookupTool impls name with
  | some f =>
    match f args with
    | Except.ok v => v
    | Except.error e =>
      Json.obj [("error", Json.str (e.message.getD "Unknown error running function"))]
  | none =>
    Json.obj [("error", Json.str ("Function " ++ jsDisplay name ++ " is not implemented."))]

/-- JS nullish coalescing `a ?? b`: `b` when `a` is `undefined` or `null`. -/
def jsCoalesce (a b : Option Json) : Option Json :=
  match a with
  | none => b
  | some Json.null => b
  | some v => some v

/-- The correlation identifier placed on the result: `item?.id ?? item?.call_id`
(server.js line 164). -/
def correlationId (item : Json) : Option Json :=
  jsCoalesce (item.getField "id") (item.getField "call_id")

/-- The `conversation.item.create` event carrying a `function_call_output`
item (server.js lines 159-167). When the correlation identifier is absent the
`call_id` property is `undefined` and `JSON.stringify` drops it; the `output`
property is the JSON-serialized result. -/
def mkOutputEvent (cid : Option Json) (result : Json) : Json :=
  Json.obj [("type", Json.str "conversation.item.create"),
    ("item", Json.obj (("type", Json.str "function_call_output") ::
      (match cid with | some v => [("call_id", v)] | none => []) ++
      [("output", Json.str result.stringify)]))]

/-- `handleFunctionCall` (server.js lines 140-169) as the event it sends on
the stream: parse the arguments, run or reject the tool, and emit exactly one
correlated `function_call_output` event. -/
def handleFunctionCall (impls : ToolTable) (item : Json) : Json :=
  mkOutputEvent (correlationId item) (dispatchResult impls (item.getField "name") (argsOf item))

/-- `initialGreetingEvent` (server.js lines 111-116). -/
def initialGreetingEvent : Json :=
  Json.obj [("type", Json.str "response.create"),
    ("response", Json.obj [("instructions",
      Json.str "Say: Hello! Thanks for calling ACME Internet support. How can I help you today?")])]

/-- The transport-level events a WebSocket delivers to the registered
handlers: `open`, `message` (raw frame text), `error`, `close`. -/
inductive WsEvent where
  | wsOpen : WsEvent
  | wsMessage : String → WsEvent
  | wsError : WsEvent
  | wsClose : Nat → WsEvent
deriving Repr, DecidableEq

/-- The stream lifecycle state: `isOpen` after the `open` event, `closed`
after the `close` event (the Connecting/Open/Closed states of the spec). -/
structure StreamState where
  isOpen : Bool
  closed : Bool
deriving Repr, DecidableEq

/-- The state before any transport event: connecting, neither open nor closed. -/
def streamStart : StreamState := ⟨false, false⟩

/-- Does an optional value hold exactly this string? (strict `===` compare). -/
def fieldIsStr (o : Option Json) (s : String) : Bool :=
  match o with
  | some (Json.str t) => t == s
  | _ => false

/-- The guard comparing `event?.type` with `conversation.item.created` and
`event?.item?.type` with `function_call` (server.js line 202). -/
def isFunctionCallEvent (ev : Json) : Bool :=
  fieldIsStr (ev.getField "type") "conversation.item.created" &&
  fieldIsStr ((ev.getField "item").bind (fun it => it.getField "type")) "function_call"

/-- The `event.item` passed to `handleFunctionCall`; when the guard holds the
field is present, so the `null` default is never reached. -/
def itemField (ev : Json) : Json :=
  (ev.getField "item").getD Json.null

/-- One transition of the handlers registered by `websocketTask` (server.js
lines 178-214), returning the next state and the frames sent in response:
`open` marks the stream open and sends the greeting; `message` decodes the
frame — a decode failure is logged and the frame skipped (`return`) — and a
created-item event holding a `function_call` is answered via
`handleFunctionCall`; `error` only logs; `close` marks the stream closed.
No handler schedules a reconnect or retry of any kind. -/
def wsStep (impls : ToolTable) (st : StreamState) (e : WsEvent) : StreamState × List Json :=
  match e with
  | WsEvent.wsOpen => ({ st with isOpen := true }, [initialGreetingEvent])
  | WsEvent.wsMessage text =>
    match parseJson text with
    | none => (st, [])
    | some ev =>
      if isFunctionCallEvent ev then (st, [handleFunctionCall impls (itemField ev)])
      else (st, [])
  | WsEvent.wsError => (st, [])
  | WsEvent.wsClose _ => ({ st with isOpen := false, closed := true }, [])

/-- Run the stream handlers over a whole trace of transport events from a
given state, collecting the frames sent in order. -/
def runFrom (impls : ToolTable) (st : StreamState) : List WsEvent → StreamState × List Json
  | [] => (st, [])
  | e :: rest =>
    let (st', out) := wsStep impls st e
    let (stF, outs) := runFrom impls st' rest
    (stF, out ++ outs)

/-- Run the stream handlers over a trace from the connecting state. -/
def runStream (impls : ToolTable) (t : List WsEvent) : StreamState × List Json :=
  runFrom impls streamStart t

/-- Transport validity, tracking whether `open` has fired: a WebSocket fires
`open` at most once and delivers no `message` before it. -/
def validFrom : Bool → List WsEvent → Bool
  | _, [] => true
  | opened, WsEvent.wsOpen :: rest => !opened && validFrom true rest
  | opened, WsEvent.wsMessage _ :: rest => opened && validFrom opened rest
  | opened, WsEvent.wsError :: rest => validFrom opened rest
  | opened, WsEvent.wsClose _ :: rest => validFrom opened rest

/-- A trace the transport can actually deliver, starting before `open`. -/
def validTrace (t : List WsEvent) : Bool := validFrom false t

/-- A verified webhook event as seen by the POST handler: its `type` and the
`event?.data?.call_id` property. -/
structure WebhookEvent where
  type : String
  callId : Option String
deriving Repr, DecidableEq

/-- The HTTP response status of the accept endpoint. -/
structure AcceptResponse where
  status : Nat
deriving Repr, DecidableEq

/-- `fetch` `Response.ok`: status in the 200-299 range. -/
def acceptOk (r : AcceptResponse) : Bool :=
  200 ≤ r.status && r.status < 300

/-- The HTTP reply of the webhook handler: status, body, and the optional echoed
`Authorization` header. -/
structure HttpResponse where
  status : Nat
  body : String
  authHeader : Option String
deriving Repr, DecidableEq

/-- The outward-visible actions a handler performs, in order: the outbound
accept POST, and a stream connection scheduled via `setTimeout` with a bearer
token and a delay in milliseconds. Connections are only ever scheduled, never
made inline. -/
inductive Action where
  | acceptRequest : String → Action
  | scheduleConnect : String → String → Nat → Action
deriving Repr, DecidableEq

/-- The accept endpoint URL for a call identifier (the identifier is opaque
URL-safe material, on which `encodeURIComponent` is the identity). -/
def acceptUrl (callId : String) : String :=
  "https://api.openai.com/v1/realtime/calls/" ++ callId ++ "/accept"

/-- The default stream endpoint pattern parameterized by the call identifier. -/
def defaultWssUrl (callId : String) : String :=
  "wss://api.openai.com/v1/realtime?call_id=" ++ callId

/-- Template-literal rendering of a possibly-absent string (`undefined`
interpolates as the string "undefined"). -/
def jsTemplate : Option String → String
  | none => "undefined"
  | some s => s

/-- JS truthiness of a possibly-absent string (the `if (!callId)` guard):
absent and empty are falsy. -/
def jsTruthyStr : Option String → Bool
  | none => false
  | some s => s != ""

/-- JS truthiness selection over a possibly-absent field, as used for
`acceptData?.ws_url ? acceptData.ws_url : default` and
`acceptData?.client_secret?.value || OPENAI_API_KEY`: a truthy value is
rendered to a string, anything else falls back. -/
def jsOrString (v : Option Json) (fallback : String) : String :=
  match v with
  | some u => if jsTruthy u then jsDisplay (some u) else fallback
  | none => fallback

/-- The `src/server.js` webhook POST handler (lines 238-279) on a verified
event, as a function of the answer of the accept endpoint. It never validates the
call identifier: a missing one is interpolated as the string "undefined" in
the accept URL. A failed accept yields 500 "Call accept failed" with no
stream scheduled; a successful one schedules the default stream endpoint
with the static credential and a 0 ms delay (`connectWithDelay(wssUrl, 0)`),
then replies 200 echoing the Authorization header. -/
def serverJsHandle (apiKey : String) (ev : WebhookEvent) (accept : AcceptResponse) :
    HttpResponse × List Action :=
  if ev.type = "realtime.call.incoming" then
    let c := jsTemplate ev.callId
    if acceptOk accept then
      (⟨200, "OK", some ("Bearer " ++ apiKey)⟩,
       [Action.acceptRequest (acceptUrl c),
        Action.scheduleConnect (defaultWssUrl c) apiKey 0])
    else
      (⟨500, "Call accept failed", none⟩, [Action.acceptRequest (acceptUrl c)])
  else (⟨200, "OK", none⟩, [])

/-- The `src/unnamed/part_000` webhook POST handler (lines 109-168): a falsy
call identifier yields 400 "Missing call_id" with no outbound request; a
failed accept yields 502 "Accept failed" with no stream and no retry; a
successful accept schedules the default stream endpoint with the static
credential after 1000 ms (`connectWithDelay(wssUrl, 1000)`). -/
def part000Handle (apiKey : String) (ev : WebhookEvent) (accept : AcceptResponse) :
    HttpResponse × List Action :=
  if ev.type = "realtime.call.incoming" then
    if jsTruthyStr ev.callId = false then
      (⟨400, "Missing call_id", none⟩, [])
    else
      let c := jsTemplate ev.callId
      if acceptOk accept then
        (⟨200, "OK", some ("Bearer " ++ apiKey)⟩,
         [Action.acceptRequest (acceptUrl c),
          Action.scheduleConnect (defaultWssUrl c) apiKey 1000])
      else (⟨502, "Accept failed", none⟩, [Action.acceptRequest (acceptUrl c)])
  else (⟨200, "OK", none⟩, [])

/-- The `src/unnamed/part_002` webhook POST handler (lines 103-161), which
additionally parses the accept response body (default `{}` when unparsable)
and extracts `ws_url` / `client_secret.value` when truthy, falling back to
the default endpoint and the static credential; the connect is scheduled with
a 1200 ms delay. -/
def part002Handle (apiKey : String) (ev : WebhookEvent) (accept : AcceptResponse)
    (acceptData : Json) : HttpResponse × List Action :=
  if ev.type = "realtime.call.incoming" then
    if jsTruthyStr ev.callId = false then
      (⟨400, "Missing call_id", none⟩, [])
    else
      let c := jsTemplate ev.callId
      if acceptOk accept then
        let wssUrl := jsOrString (acceptData.getField "ws_url") (defaultWssUrl c)
        let token := jsOrString
          ((acceptData.getField "client_secret").bind (fun cs => cs.getField "value")) apiKey
        (⟨200, "OK", some ("Bearer " ++ apiKey)⟩,
         [Action.acceptRequest (acceptUrl c),
          Action.scheduleConnect wssUrl token 1200])
      else (⟨502, "Accept failed", none⟩, [Action.acceptRequest (acceptUrl c)])
  else (⟨200, "OK", none⟩, [])

/-- The `src/unnamed/part_006` webhook POST handler (lines 111-179): a falsy
call identifier yields 400 "Missing call_id" with no outbound request; the
accept response body is read as text and parsed (`acceptData` stays null when
the body is empty or unparsable, hence `Option Json`); a failed accept yields
502 "Accept failed" with no stream and no retry; a successful accept extracts
`client_secret.value` / `ws_url` when truthy, falling back to the static
credential and the default endpoint, and schedules the connect with a
2500 ms delay (`connectWithDelay(wssUrl, token, 2500)`). -/
def part006Handle (apiKey : String) (ev : WebhookEvent) (accept : AcceptResponse)
    (acceptData : Option Json) : HttpResponse × List Action :=
  if ev.type = "realtime.call.incoming" then
    if jsTruthyStr ev.callId = false then
      (⟨400, "Missing call_id", none⟩, [])
    else
      let c := jsTemplate ev.callId
      if acceptOk accept then
        let token := jsOrString
          (acceptData.bind (fun d =>
            (d.getField "client_secret").bind (fun cs => cs.getField "value"))) apiKey
        let wssUrl := jsOrString
          (acceptData.bind (fun d => d.getField "ws_url")) (defaultWssUrl c)
        (⟨200, "OK", some ("Bearer " ++ apiKey)⟩,
         [Action.acceptRequest (acceptUrl c),
          Action.scheduleConnect wssUrl token 2500])
      else (⟨502, "Accept failed", none⟩, [Action.acceptRequest (acceptUrl c)])
  else (⟨200, "OK", none⟩, [])

/-- The delays of the scheduled stream connections among the actions of one
handler invocation. -/
def scheduledDelays (acts : List Action) : List Nat :=
  acts.filterMap (fun a =>
    match a with
    | Action.scheduleConnect _ _ d => some d
    | _ => none)

/-- A concrete instance of the tool table, with the ambient time and random
number fixed, used to evaluate the theorems on concrete inputs. -/
def impls0 : ToolTable := functionImplementations "2026-10-12T00:00:00.000Z" 42

/-- A tool table holding one tool whose implementation always throws, used to
exercise the error-conversion path on concrete inputs. -/
def c1Impls : ToolTable := fun n =>
  if n = "boom" then some (fun _ => Except.error ⟨some "kaboom"⟩) else none

/-- A raw stream frame carrying a created-item event with a function call. -/
def c1Text : String :=
  "\x7b\"type\":\"conversation.item.created\",\"item\":\x7b\"type\":\"function_call\",\"id\":\"fc1\",\"name\":\"boom\"\x7d\x7d"

/-- The function-call item carried by `c1Text`. -/
def c1Item : Json :=
  Json.obj [("type", Json.str "function_call"), ("id", Json.str "fc1"),
    ("name", Json.str "boom")]

/-- The decoded event carried by `c1Text`. -/
def c1Ev : Json :=
  Json.obj [("type", Json.str "conversation.item.created"), ("item", c1Item)]

/-- A function-call item naming a tool absent from the dispatch table. -/
def c4Item : Json :=
  Json.obj [("type", Json.str "function_call"), ("id", Json.str "fc9"),
    ("name", Json.str "unknown_tool")]

/-- A function-call item whose arguments string is not decodable JSON. -/
def c8Item : Json :=
  Json.obj [("name", Json.str "get_current_time"), ("id", Json.str "fc2"),
    ("arguments", Json.str "\x7bbad")]

/-- A function-call item carrying both an `id` and a `call_id` property. -/
def c10ItemA : Json :=
  Json.obj [("id", Json.str "idX"), ("call_id", Json.str "cidY"),
    ("name", Json.str "get_current_time")]

/-- A function-call item carrying only a `call_id` property. -/
def c10ItemB : Json :=
  Json.obj [("call_id", Json.str "cidY"), ("name", Json.str "get_current_time")]

/-- The result event always has the `conversation.item.create` type tag. -/
theorem handleFunctionCall_type (impls : ToolTable) (item : Json) :
    (handleFunctionCall impls item).getField "type"
      = some (Json.str "conversation.item.create") := rfl

/-- The `call_id` property of the emitted result item equals the correlation
identifier of the request item (and is absent exactly when that is). -/
theorem handleFunctionCall_callId (impls : ToolTable) (item : Json) :
    ((handleFunctionCall impls item).getField "item").bind (fun it => it.getField "call_id")
      = correlationId item := by
  cases h : correlationId item with
  | none =>
    simp [handleFunctionCall, mkOutputEvent, Json.getField, findField, h]
  | some v =>
    simp [handleFunctionCall, mkOutputEvent, Json.getField, findField, h]

/-- The greeting event is never equal to a function-call result event: their
type tags differ. -/
theorem greeting_ne_output (impls : ToolTable) (item : Json) :
    initialGreetingEvent ≠ handleFunctionCall impls item := by
  intro h
  have h2 : initialGreetingEvent.getField "type"
      = (handleFunctionCall impls item).getField "type" := by rw [h]
  rw [handleFunctionCall_type] at h2
  simp [initialGreetingEvent, Json.getField, findField] at h2

/-- After `open` has fired, a valid transport trace delivers no further
`open` event. -/
theorem validFrom_true_no_open (t : List WsEvent) (h : validFrom true t = true) :
    WsEvent.wsOpen ∉ t := by
  induction t with
  | nil => simp
  | cons e rest ih =>
    cases e with
    | wsOpen => simp [validFrom] at h
    | wsMessage s =>
      simp [validFrom] at h
      simp [ih h]
    | wsError =>
      simp [validFrom] at h
      simp [ih h]
    | wsClose c =>
      simp [validFrom] at h
      simp [ih h]

/-- A trace without an `open` event never causes the greeting to be sent:
message handling only emits result events, which differ from the greeting. -/
theorem no_open_no_greeting (impls : ToolTable) (st : StreamState) (t : List WsEvent)
    (h : WsEvent.wsOpen ∉ t) :
    initialGreetingEvent ∉ (runFrom impls st t).2 := by
  induction t generalizing st with
  | nil => simp [runFrom]
  | cons e rest ih =>
    have hne : e ≠ WsEvent.wsOpen := fun he => h (he ▸ List.mem_cons_self e rest)
    have hrest : WsEvent.wsOpen ∉ rest := fun hm => h (List.mem_cons_of_mem e hm)
    cases e with
    | wsOpen => exact absurd rfl hne
    | wsMessage s =>
      simp only [runFrom, wsStep]
      cases hp : parseJson s with
      | none => simpa [hp] using ih st hrest
      | some ev =>
        by_cases hfc : isFunctionCallEvent ev = true
        · simp only [hp, hfc, if_true, List.singleton_append]
          intro hmem
          rcases List.mem_cons.mp hmem with heq | hmem2
          · exact greeting_ne_output impls (itemField ev) heq
          · exact ih st hrest hmem2
        · simp only [hp, hfc, if_false, List.nil_append]
          exact ih st hrest
    | wsError =>
      simpa [runFrom, wsStep] using ih st hrest
    | wsClose c =>
      simpa [runFrom, wsStep] using ih { st with isOpen := false, closed := true } hrest

/-- On any valid transport trace containing `open`, and from any starting
state, the first frame sent is the greeting and it is sent exactly once. -/
theorem greeting_aux (impls : ToolTable) (st : StreamState) (t : List WsEvent)
    (hv : validFrom false t = true) (ho : WsEvent.wsOpen ∈ t) :
    ∃ rest, (runFrom impls st t).2 = initialGreetingEvent :: rest ∧
      initialGreetingEvent ∉ rest := by
  induction t generalizing st with
  | nil => cases ho
  | cons e tail ih =>
    cases e with
    | wsOpen =>
      simp only [validFrom, Bool.not_false, Bool.true_and] at hv
      have hno : WsEvent.wsOpen ∉ tail := validFrom_true_no_open tail hv
      refine ⟨(runFrom impls { st with isOpen := true } tail).2, ?_, ?_⟩
      · simp [runFrom, wsStep]
      · exact no_open_no_greeting impls _ tail hno
    | wsMessage s =>
      simp [validFrom] at hv
    | wsError =>
      simp only [validFrom] at hv
      have ho' : WsEvent.wsOpen ∈ tail := by
        rcases List.mem_cons.mp ho with heq | hm
        · exact absurd heq.symm (by simp)
        · exact hm
      rcases ih st hv ho' with ⟨rest, hr, hnr⟩
      exact ⟨rest, by simp [runFrom, wsStep, hr], hnr⟩
    | wsClose c =>
      simp only [validFrom] at hv
      have ho' : WsEvent.wsOpen ∈ tail := by
        rcases List.mem_cons.mp ho with heq | hm
        · exact absurd heq.symm (by simp)
        · exact hm
      rcases ih { st with isOpen := false, closed := true } hv ho' with ⟨rest, hr, hnr⟩
      exact ⟨rest, by simp [runFrom, wsStep, hr], hnr⟩

/-- Claim C1: every function-call request item observed on an open stream is
answered by exactly one result event (the message step sends a singleton),
the result carries the same correlation identifier as the request, a throwing
tool implementation is converted to an `error: message` payload rather than
crashing, and the stream state is unchanged — it remains open. -/
theorem c1_function_call_answered_once (impls : ToolTable) (st : StreamState)
    (text : String) (ev item : Json)
    (hp : parseJson text = some ev) (hfc : isFunctionCallEvent ev = true)
    (hit : ev.getField "item" = some item) :
    (wsStep impls st (WsEvent.wsMessage text)).2 = [handleFunctionCall impls item] ∧
    (wsStep impls st (WsEvent.wsMessage text)).1 = st ∧
    ((handleFunctionCall impls item).getField "item").bind (fun it => it.getField "call_id")
      = correlationId item ∧
    (∀ (n : String) (f : ToolImpl) (e : JsError),
      item.getField "name" = some (Json.str n) → impls n = some f →
      f (argsOf item) = Except.error e →
      handleFunctionCall impls item = mkOutputEvent (correlationId item)
        (Json.obj [("error", Json.str (e.message.getD "Unknown error running function"))])) := by
  refine ⟨?_, ?_, handleFunctionCall_callId impls item, ?_⟩
  · simp [wsStep, hp, hfc, itemField, hit]
  · simp [wsStep, hp, hfc]
  · intro n f e hname himpl hthrow
    simp [handleFunctionCall, dispatchResult, lookupTool, hname, himpl, hthrow]

/-- Witness for C1: a concrete frame carrying a call to a throwing tool is
answered by exactly one correlated result on an open, unchanged stream. -/
theorem c1_function_call_answered_once_witness :
    parseJson c1Text = some c1Ev ∧
    isFunctionCallEvent c1Ev = true ∧
    c1Ev.getField "item" = some c1Item ∧
    ((wsStep c1Impls ⟨true, false⟩ (WsEvent.wsMessage c1Text)).2
        = [handleFunctionCall c1Impls c1Item] ∧
      (wsStep c1Impls ⟨true, false⟩ (WsEvent.wsMessage c1Text)).1 = ⟨true, false⟩ ∧
      ((handleFunctionCall c1Impls c1Item).getField "item").bind
          (fun it => it.getField "call_id") = correlationId c1Item ∧
      (∀ (n : String) (f : ToolImpl) (e : JsError),
        c1Item.getField "name" = some (Json.str n) → c1Impls n = some f →
        f (argsOf c1Item) = Except.error e →
        handleFunctionCall c1Impls c1Item = mkOutputEvent (correlationId c1Item)
          (Json.obj [("error",
            Json.str (e.message.getD "Unknown error running function"))]))) :=
  ⟨rfl, rfl, rfl, c1_function_call_answered_once c1Impls ⟨true, false⟩ c1Text c1Ev c1Item rfl rfl rfl⟩

/-- Counterexample to C2: on an incoming-call event with no call identifier,
the `src/server.js` handler does not respond 400 — it issues the accept
request with the identifier interpolated as the string "undefined" and, when
the accept succeeds, replies 200 and schedules the stream connection. -/
theorem c2_counterexample :
    serverJsHandle "sk-test" ⟨"realtime.call.incoming", none⟩ ⟨200⟩
      = (⟨200, "OK", some "Bearer sk-test"⟩,
         [Action.acceptRequest "https://api.openai.com/v1/realtime/calls/undefined/accept",
          Action.scheduleConnect "wss://api.openai.com/v1/realtime?call_id=undefined" "sk-test" 0]) ∧
    (serverJsHandle "sk-test" ⟨"realtime.call.incoming", none⟩ ⟨200⟩).1.status ≠ 400 :=
  ⟨rfl, by decide⟩

/-- Claim C2 (amended): on an incoming-call event lacking a call identifier,
each validating variant handler — part_000, part_002 and part_006 — responds
400 "Missing call_id" and issues no outbound request at all, while the
`src/server.js` handler performs no such validation and issues the accept
request with the identifier rendered as the string "undefined". -/
theorem c2_missing_call_id_amended (apiKey : String) (ev : WebhookEvent)
    (accept : AcceptResponse) (acceptData : Json) (acceptData6 : Option Json)
    (hty : ev.type = "realtime.call.incoming") (hid : ev.callId = none) :
    part000Handle apiKey ev accept = (⟨400, "Missing call_id", none⟩, []) ∧
    part002Handle apiKey ev accept acceptData = (⟨400, "Missing call_id", none⟩, []) ∧
    part006Handle apiKey ev accept acceptData6 = (⟨400, "Missing call_id", none⟩, []) ∧
    (serverJsHandle apiKey ev accept).2.head?
      = some (Action.acceptRequest (acceptUrl "undefined")) := by
  refine ⟨?_, ?_, ?_, ?_⟩
  · simp [part000Handle, hty, hid, jsTruthyStr]
  · simp [part002Handle, hty, hid, jsTruthyStr]
  · simp [part006Handle, hty, hid, jsTruthyStr]
  · by_cases hok : acceptOk accept = true
    · simp [serverJsHandle, hty, hid, hok, jsTemplate]
    · simp [serverJsHandle, hty, hid, hok, jsTemplate]

/-- Witness for the amended C2 on a concrete identifier-less event. -/
theorem c2_missing_call_id_amended_witness :
    (⟨"realtime.call.incoming", none⟩ : WebhookEvent).type = "realtime.call.incoming" ∧
    (⟨"realtime.call.incoming", none⟩ : WebhookEvent).callId = none ∧
    (part000Handle "sk-test" ⟨"realtime.call.incoming", none⟩ ⟨200⟩
        = (⟨400, "Missing call_id", none⟩, []) ∧
      part002Handle "sk-test" ⟨"realtime.call.incoming", none⟩ ⟨200⟩ (Json.obj [])
        = (⟨400, "Missing call_id", none⟩, []) ∧
      part006Handle "sk-test" ⟨"realtime.call.incoming", none⟩ ⟨200⟩ none
        = (⟨400, "Missing call_id", none⟩, []) ∧
      (serverJsHandle "sk-test" ⟨"realtime.call.incoming", none⟩ ⟨200⟩).2.head?
        = some (Action.acceptRequest (acceptUrl "undefined"))) :=
  ⟨rfl, rfl,
    c2_missing_call_id_amended "sk-test" ⟨"realtime.call.incoming", none⟩ ⟨200⟩
      (Json.obj []) none rfl rfl⟩

/-- Counterexample to C3: when the accept endpoint answers 404, the
`src/server.js` handler responds 500 with body "Call accept failed" — not 502
with body "Accept failed" as claimed. -/
theorem c3_counterexample :
    serverJsHandle "sk-test" ⟨"realtime.call.incoming", some "abc123"⟩ ⟨404⟩
      = (⟨500, "Call accept failed", none⟩,
         [Action.acceptRequest "https://api.openai.com/v1/realtime/calls/abc123/accept"]) ∧
    (serverJsHandle "sk-test" ⟨"realtime.call.incoming", some "abc123"⟩ ⟨404⟩).1.status ≠ 502 ∧
    (serverJsHandle "sk-test" ⟨"realtime.call.incoming", some "abc123"⟩ ⟨404⟩).1.body
      ≠ "Accept failed" :=
  ⟨rfl, by decide, by decide⟩

/-- Claim C3 (amended): on a non-success accept response, the part_000,
part_002 and part_006 variant handlers respond 502 "Accept failed" while the
`src/server.js` handler responds 500 "Call accept failed"; in all of them,
the action list shows exactly one accept request (no retry) and no scheduled
stream connection. -/
theorem c3_accept_failure_amended (apiKey : String) (ev : WebhookEvent)
    (accept : AcceptResponse) (acceptData : Json) (acceptData6 : Option Json)
    (hty : ev.type = "realtime.call.incoming") (hid : jsTruthyStr ev.callId = true)
    (hko : acceptOk accept = false) :
    part000Handle apiKey ev accept
      = (⟨502, "Accept failed", none⟩,
         [Action.acceptRequest (acceptUrl (jsTemplate ev.callId))]) ∧
    part002Handle apiKey ev accept acceptData
      = (⟨502, "Accept failed", none⟩,
         [Action.acceptRequest (acceptUrl (jsTemplate ev.callId))]) ∧
    part006Handle apiKey ev accept acceptData6
      = (⟨502, "Accept failed", none⟩,
         [Action.acceptRequest (acceptUrl (jsTemplate ev.callId))]) ∧
    serverJsHandle apiKey ev accept
      = (⟨500, "Call accept failed", none⟩,
         [Action.acceptRequest (acceptUrl (jsTemplate ev.callId))]) := by
  refine ⟨?_, ?_, ?_, ?_⟩
  · simp [part000Handle, hty, hid, hko]
  · simp [part002Handle, hty, hid, hko]
  · simp [part006Handle, hty, hid, hko]
  · simp [serverJsHandle, hty, hko]

/-- Witness for the amended C3: a 404 accept response for a concrete call. -/
theorem c3_accept_failure_amended_witness :
    (⟨"realtime.call.incoming", some "abc123"⟩ : WebhookEvent).type = "realtime.call.incoming" ∧
    jsTruthyStr (⟨"realtime.call.incoming", some "abc123"⟩ : WebhookEvent).callId = true ∧
    acceptOk ⟨404⟩ = false ∧
    (part000Handle "sk-test" ⟨"realtime.call.incoming", some "abc123"⟩ ⟨404⟩
        = (⟨502, "Accept failed", none⟩,
           [Action.acceptRequest (acceptUrl "abc123")]) ∧
      part002Handle "sk-test" ⟨"realtime.call.incoming", some "abc123"⟩ ⟨404⟩ (Json.obj [])
        = (⟨502, "Accept failed", none⟩,
           [Action.acceptRequest (acceptUrl "abc123")]) ∧
      part006Handle "sk-test" ⟨"realtime.call.incoming", some "abc123"⟩ ⟨404⟩ none
        = (⟨502, "Accept failed", none⟩,
           [Action.acceptRequest (acceptUrl "abc123")]) ∧
      serverJsHandle "sk-test" ⟨"realtime.call.incoming", some "abc123"⟩ ⟨404⟩
        = (⟨500, "Call accept failed", none⟩,
           [Action.acceptRequest (acceptUrl "abc123")])) :=
  ⟨rfl, rfl, rfl,
    c3_accept_failure_amended "sk-test" ⟨"realtime.call.incoming", some "abc123"⟩ ⟨404⟩
      (Json.obj []) none rfl rfl rfl⟩

/-- Counterexample to C4: on the tool name "unknown_tool", the dispatch emits
the serialized payload `{error: "Function unknown_tool is not implemented."}`
(correlated to the request id), which differs from the claimed exact payload
`{error: "unknown_tool is not implemented"}`. -/
theorem c4_counterexample :
    handleFunctionCall impls0
        (Json.obj [("type", Json.str "function_call"),
          ("id", Json.str "fc9"), ("name", Json.str "unknown_tool")])
      = Json.obj [("type", Json.str "conversation.item.create"),
          ("item", Json.obj [("type", Json.str "function_call_output"),
            ("call_id", Json.str "fc9"),
            ("output",
              Json.str "\x7b\"error\":\"Function unknown_tool is not implemented.\"\x7d")])] ∧
    ("\x7b\"error\":\"Function unknown_tool is not implemented.\"\x7d" : String)
      ≠ "\x7b\"error\":\"unknown_tool is not implemented\"\x7d" :=
  ⟨rfl, by decide⟩

/-- Claim C4 (amended): a function-call request naming a tool absent from the
static dispatch table yields a result whose payload is exactly
`{error: "Function <tool> is not implemented."}` with correlation identifier
equal to that of the request — it is never silently dropped. -/
theorem c4_unknown_tool_amended (impls : ToolTable) (item : Json) (n : String)
    (hname : item.getField "name" = some (Json.str n)) (hunk : impls n = none) :
    handleFunctionCall impls item = mkOutputEvent (correlationId item)
      (Json.obj [("error", Json.str ("Function " ++ n ++ " is not implemented."))]) ∧
    ((handleFunctionCall impls item).getField "item").bind (fun it => it.getField "call_id")
      = correlationId item := by
  refine ⟨?_, handleFunctionCall_callId impls item⟩
  simp [handleFunctionCall, dispatchResult, lookupTool, hname, hunk, jsDisplay]

/-- Witness for the amended C4 at the concrete tool name "unknown_tool". -/
theorem c4_unknown_tool_amended_witness :
    c4Item.getField "name" = some (Json.str "unknown_tool") ∧
    impls0 "unknown_tool" = none ∧
    (handleFunctionCall impls0 c4Item = mkOutputEvent (correlationId c4Item)
        (Json.obj [("error",
          Json.str ("Function " ++ "unknown_tool" ++ " is not implemented."))]) ∧
      ((handleFunctionCall impls0 c4Item).getField "item").bind
          (fun it => it.getField "call_id") = correlationId c4Item) :=
  ⟨rfl, rfl, c4_unknown_tool_amended impls0 c4Item "unknown_tool" rfl rfl⟩

/-- Claim C5: when a successful accept response contains neither a `ws_url`
nor a `client_secret`, the stream is scheduled at the default endpoint
`wss://api.openai.com/v1/realtime?call_id=<callId>` authenticated with the
static long-lived credential — in the part_002 handler, which reads the
response body, and in the `src/server.js` handler, which always uses the
default endpoint and static credential. -/
theorem c5_default_stream_fallback (apiKey : String) (ev : WebhookEvent)
    (accept : AcceptResponse) (acceptData : Json)
    (hty : ev.type = "realtime.call.incoming") (hid : jsTruthyStr ev.callId = true)
    (hok : acceptOk accept = true)
    (hws : acceptData.getField "ws_url" = none)
    (hcs : acceptData.getField "client_secret" = none) :
    part002Handle apiKey ev accept acceptData
      = (⟨200, "OK", some ("Bearer " ++ apiKey)⟩,
         [Action.acceptRequest (acceptUrl (jsTemplate ev.callId)),
          Action.scheduleConnect (defaultWssUrl (jsTemplate ev.callId)) apiKey 1200]) ∧
    (serverJsHandle apiKey ev accept).2
      = [Action.acceptRequest (acceptUrl (jsTemplate ev.callId)),
         Action.scheduleConnect (defaultWssUrl (jsTemplate ev.callId)) apiKey 0] := by
  constructor
  · simp [part002Handle, hty, hid, hok, hws, hcs, jsOrString]
  · simp [serverJsHandle, hty, hok]

/-- Witness for C5: an empty accept response body for a concrete call. -/
theorem c5_default_stream_fallback_witness :
    (⟨"realtime.call.incoming", some "abc123"⟩ : WebhookEvent).type = "realtime.call.incoming" ∧
    jsTruthyStr (some "abc123") = true ∧
    acceptOk ⟨200⟩ = true ∧
    (Json.obj []).getField "ws_url" = none ∧
    (Json.obj []).getField "client_secret" = none ∧
    (part002Handle "sk-test" ⟨"realtime.call.incoming", some "abc123"⟩ ⟨200⟩ (Json.obj [])
        = (⟨200, "OK", some "Bearer sk-test"⟩,
           [Action.acceptRequest (acceptUrl "abc123"),
            Action.scheduleConnect (defaultWssUrl "abc123") "sk-test" 1200]) ∧
      (serverJsHandle "sk-test" ⟨"realtime.call.incoming", some "abc123"⟩ ⟨200⟩).2
        = [Action.acceptRequest (acceptUrl "abc123"),
           Action.scheduleConnect (defaultWssUrl "abc123") "sk-test" 0]) :=
  ⟨rfl, rfl, rfl, rfl, rfl,
    c5_default_stream_fallback "sk-test" ⟨"realtime.call.incoming", some "abc123"⟩ ⟨200⟩
      (Json.obj []) rfl rfl rfl rfl rfl⟩

/-- Counterexample to C6: after a malformed (non-JSON-decodable) frame on an
open stream, the stream has NOT transitioned to Closed — the state is still
open (`isOpen = true`, `closed = false`) and the only frame ever sent is the
greeting from the `open` event; the malformed frame was merely skipped. -/
theorem c6_counterexample :
    (runStream impls0 [WsEvent.wsOpen, WsEvent.wsMessage "]oops"]).1
      = ⟨true, false⟩ ∧
    (runStream impls0 [WsEvent.wsOpen, WsEvent.wsMessage "]oops"]).2
      = [initialGreetingEvent] :=
  ⟨rfl, rfl⟩

/-- Claim C6 (amended): a malformed frame is logged and skipped, leaving the
stream state unchanged (still open) with nothing sent; a transport `error`
event is logged only, also leaving the state unchanged; a transport `close`
transitions the stream to Closed. No handler emits anything on error or
close, and none schedules a retry or reconnection. -/
theorem c6_stream_error_amended (impls : ToolTable) (st : StreamState) (text : String)
    (hm : parseJson text = none) :
    wsStep impls st (WsEvent.wsMessage text) = (st, []) ∧
    (∀ c, wsStep impls st (WsEvent.wsClose c)
      = ({ st with isOpen := false, closed := true }, [])) ∧
    wsStep impls st WsEvent.wsError = (st, []) := by
  refine ⟨?_, fun c => rfl, rfl⟩
  simp [wsStep, hm]

/-- Witness for the amended C6 at the concrete malformed frame "]oops". -/
theorem c6_stream_error_amended_witness :
    parseJson "]oops" = none ∧
    (wsStep impls0 ⟨true, false⟩ (WsEvent.wsMessage "]oops") = (⟨true, false⟩, []) ∧
      (∀ c, wsStep impls0 ⟨true, false⟩ (WsEvent.wsClose c)
        = (⟨false, true⟩, [])) ∧
      wsStep impls0 ⟨true, false⟩ WsEvent.wsError = (⟨true, false⟩, [])) :=
  ⟨rfl, c6_stream_error_amended impls0 ⟨true, false⟩ "]oops" rfl⟩

/-- Counterexample to C7: the `src/server.js` handler schedules the stream
connection with a delay of 0 ms (`connectWithDelay(wssUrl, 0)`), not a delay
on the order of 1 second. -/
theorem c7_counterexample :
    scheduledDelays
      (serverJsHandle "sk-test" ⟨"realtime.call.incoming", some "abc123"⟩ ⟨200⟩).2 = [0] ∧
    (0 : Nat) < 1000 :=
  ⟨rfl, by decide⟩

/-- Claim C7 (amended): for every accepted incoming call, exactly one stream
connection is scheduled, always through the `setTimeout` timer — so no
connection is attempted before the timer fires — but the delay differs by
variant: `src/server.js` passes 0 ms (immediate), part_000 passes 1000 ms,
part_002 passes 1200 ms and part_006 passes 2500 ms. -/
theorem c7_connect_delay_amended (apiKey : String) (ev : WebhookEvent)
    (accept : AcceptResponse) (acceptData : Json) (acceptData6 : Option Json)
    (hty : ev.type = "realtime.call.incoming")
    (hid : jsTruthyStr ev.callId = true)
    (hok : acceptOk accept = true) :
    scheduledDelays (serverJsHandle apiKey ev accept).2 = [0] ∧
    scheduledDelays (part000Handle apiKey ev accept).2 = [1000] ∧
    scheduledDelays (part002Handle apiKey ev accept acceptData).2 = [1200] ∧
    scheduledDelays (part006Handle apiKey ev accept acceptData6).2 = [2500] := by
  refine ⟨?_, ?_, ?_, ?_⟩
  · simp [serverJsHandle, hty, hok, scheduledDelays]
  · simp [part000Handle, hty, hid, hok, scheduledDelays]
  · simp [part002Handle, hty, hid, hok, scheduledDelays]
  · simp [part006Handle, hty, hid, hok, scheduledDelays]

/-- Witness for the amended C7 on a concrete accepted call. -/
theorem c7_connect_delay_amended_witness :
    (⟨"realtime.call.incoming", some "abc123"⟩ : WebhookEvent).type = "realtime.call.incoming" ∧
    jsTruthyStr (some "abc123") = true ∧
    acceptOk ⟨200⟩ = true ∧
    (scheduledDelays
        (serverJsHandle "sk-test" ⟨"realtime.call.incoming", some "abc123"⟩ ⟨200⟩).2 = [0] ∧
      scheduledDelays
        (part000Handle "sk-test" ⟨"realtime.call.incoming", some "abc123"⟩ ⟨200⟩).2 = [1000] ∧
      scheduledDelays
        (part002Handle "sk-test" ⟨"realtime.call.incoming", some "abc123"⟩ ⟨200⟩
          (Json.obj [])).2 = [1200] ∧
      scheduledDelays
        (part006Handle "sk-test" ⟨"realtime.call.incoming", some "abc123"⟩ ⟨200⟩
          none).2 = [2500]) :=
  ⟨rfl, rfl, rfl,
    c7_connect_delay_amended "sk-test" ⟨"realtime.call.incoming", some "abc123"⟩ ⟨200⟩
      (Json.obj []) none rfl rfl rfl⟩

/-- Claim C8: a function-call request whose arguments string does not parse
as JSON is dispatched with empty arguments `{}` and still produces the normal
single correlated result event, instead of failing. -/
theorem c8_malformed_arguments (impls : ToolTable) (item : Json) (s : String)
    (hargs : item.getField "arguments" = some (Json.str s))
    (hbad : parseJson s = none) :
    argsOf item = Json.obj [] ∧
    handleFunctionCall impls item
      = mkOutputEvent (correlationId item)
          (dispatchResult impls (item.getField "name") (Json.obj [])) := by
  have ha : argsOf item = Json.obj [] := by
    by_cases hs : s = ""
    · simp [argsOf, hargs, hs]
    · simp [argsOf, hargs, hs, hbad]
  exact ⟨ha, by rw [handleFunctionCall, ha]⟩

/-- Witness for C8 at the concrete malformed arguments string. -/
theorem c8_malformed_arguments_witness :
    c8Item.getField "arguments" = some (Json.str "\x7bbad") ∧
    parseJson "\x7bbad" = none ∧
    (argsOf c8Item = Json.obj [] ∧
      handleFunctionCall impls0 c8Item
        = mkOutputEvent (correlationId c8Item)
            (dispatchResult impls0 (c8Item.getField "name") (Json.obj []))) :=
  ⟨rfl, rfl, c8_malformed_arguments impls0 c8Item "\x7bbad" rfl rfl⟩

/-- Claim C9: on every valid transport trace in which the stream opens, the
greeting event is the very first frame sent — so it precedes every
function-call result — and it is sent exactly once (it never recurs in the
remainder of the sent frames). -/
theorem c9_greeting_unique_and_first (impls : ToolTable) (t : List WsEvent)
    (hv : validTrace t = true) (ho : WsEvent.wsOpen ∈ t) :
    ∃ rest, (runStream impls t).2 = initialGreetingEvent :: rest ∧
      initialGreetingEvent ∉ rest :=
  greeting_aux impls streamStart t hv ho

/-- Witness for C9 on the concrete one-event trace that opens the stream. -/
theorem c9_greeting_unique_and_first_witness :
    validTrace [WsEvent.wsOpen] = true ∧
    WsEvent.wsOpen ∈ [WsEvent.wsOpen] ∧
    ∃ rest, (runStream impls0 [WsEvent.wsOpen]).2 = initialGreetingEvent :: rest ∧
      initialGreetingEvent ∉ rest :=
  ⟨rfl, List.mem_singleton.mpr rfl,
    c9_greeting_unique_and_first impls0 [WsEvent.wsOpen] rfl (List.mem_singleton.mpr rfl)⟩

/-- Claim C10: the emitted result is a `conversation.item.create` event whose
item has type `function_call_output` and whose `output` is the serialized
result; its `call_id` is the request item `id` field whenever that is present
(non-null) — regardless of any `call_id` field also being present — and falls
back to the item `call_id` field only when `id` is absent. -/
theorem c10_output_event_correlation (impls : ToolTable) (item : Json) (v w : Json) :
    (item.getField "id" = some v → v ≠ Json.null →
      handleFunctionCall impls item
        = Json.obj [("type", Json.str "conversation.item.create"),
            ("item", Json.obj [("type", Json.str "function_call_output"),
              ("call_id", v),
              ("output", Json.str
                (dispatchResult impls (item.getField "name") (argsOf item)).stringify)])]) ∧
    (item.getField "id" = none → item.getField "call_id" = some w →
      handleFunctionCall impls item
        = Json.obj [("type", Json.str "conversation.item.create"),
            ("item", Json.obj [("type", Json.str "function_call_output"),
              ("call_id", w),
              ("output", Json.str
                (dispatchResult impls (item.getField "name") (argsOf item)).stringify)])]) := by
  constructor
  · intro hid hv
    have hc : correlationId item = some v := by
      cases v <;> simp_all [correlationId, jsCoalesce]
    simp [handleFunctionCall, mkOutputEvent, hc]
  · intro hid hcid
    have hc : correlationId item = some w := by
      simp [correlationId, jsCoalesce, hid, hcid]
    simp [handleFunctionCall, mkOutputEvent, hc]

/-- Witness for C10: an item with both `id` and `call_id` is correlated by
`id`; an item with only `call_id` falls back to it. -/
theorem c10_output_event_correlation_witness :
    c10ItemA.getField "id" = some (Json.str "idX") ∧
    Json.str "idX" ≠ Json.null ∧
    handleFunctionCall impls0 c10ItemA
      = Json.obj [("type", Json.str "conversation.item.create"),
          ("item", Json.obj [("type", Json.str "function_call_output"),
            ("call_id", Json.str "idX"),
            ("output", Json.str
              (dispatchResult impls0 (c10ItemA.getField "name") (argsOf c10ItemA)).stringify)])] ∧
    c10ItemB.getField "id" = none ∧
    c10ItemB.getField "call_id" = some (Json.str "cidY") ∧
    handleFunctionCall impls0 c10ItemB
      = Json.obj [("type", Json.str "conversation.item.create"),
          ("item", Json.obj [("type", Json.str "function_call_output"),
            ("call_id", Json.str "cidY"),
            ("output", Json.str
              (dispatchResult impls0 (c10ItemB.getField "name") (argsOf c10ItemB)).stringify)])] :=
  ⟨rfl, fun h => Json.noConfusion h,
    (c10_output_event_correlation impls0 c10ItemA (Json.str "idX") (Json.str "idX")).1 rfl
      (fun h => Json.noConfusion h),
    rfl, rfl,
    (c10_output_event_correlation impls0 c10ItemB (Json.str "idX") (Json.str "cidY")).2 rfl rfl⟩

end RealtimeSipAgent
